import Mathlib

/-!
Verification of the Raspberry-Pi time-lapse pipeline (client `time-lapse.py`,
server `upload-srv.py`) against its natural-language specification.

The client's delivery subsystem is shallowly embedded: the disk overflow
store (`DiskManager`), its drain (`flush_to_server`), the upload worker
(`upload_worker`), the startup recovery step (`startup_logic`), and the
exposure-control step of `camera_task`.  Filesystem state is explicit
(entries with names, mtimes and sizes, plus free/total byte counts); Python
floats are modelled as rationals; delivery outcomes are abstracted as a
function from (filename, attempt index) to success.
-/

namespace TimeLapse

/-! ## Configuration constants (from the user-config block of time-lapse.py) -/

/-- Source: `DEVICE_ID = "01"`. -/
def DEVICE_ID : String := "01"

/-- Source: `UPLOAD_RETRIES = 2` (live-upload attempts per item). -/
def UPLOAD_RETRIES : Nat := 2

/-- Source: `FLUSH_RETRIES_PER_FILE = 3` (drain attempts per stored file). -/
def FLUSH_RETRIES_PER_FILE : Nat := 3

/-- Source: `TARGET_BRIGHTNESS = 64`. -/
def TARGET_BRIGHTNESS : ℚ := 64

/-- Source: `BRIGHTNESS_DEADBAND = 24`. -/
def BRIGHTNESS_DEADBAND : ℚ := 24

/-- Source: `STEP_SPEED_UP = 0.9` (as the rational 9/10). -/
def STEP_SPEED_UP : ℚ := 9 / 10

/-- Source: `STEP_SPEED_DOWN = 0.3` (as the rational 3/10). -/
def STEP_SPEED_DOWN : ℚ := 3 / 10

/-- Source: `BRIGHTNESS_LOW_THRESHOLD = 48`. -/
def BRIGHTNESS_LOW_THRESHOLD : ℚ := 48

/-- Source: `BRIGHTNESS_HIGH_THRESHOLD = 155`. -/
def BRIGHTNESS_HIGH_THRESHOLD : ℚ := 155

/-- Source: `MIN_EXPOSURE = 0.25` (as the rational 1/4). -/
def MIN_EXPOSURE : ℚ := 1 / 4

/-- Source: `MAX_EXPOSURE = 112.0`. -/
def MAX_EXPOSURE : ℚ := 112

/-- Source: `DISK_RESERVE_RATIO = 0.05` (as the rational 1/20). -/
def DISK_RESERVE : ℚ := 1 / 20

/-- Source: `DISK_SORT_BY_MTIME = True`. -/
def DISK_SORT_BY_MTIME : Bool := true

/-- Source: `DISK_FLUSH_ORDER_BY_OLDEST = True`. -/
def DISK_FLUSH_ORDER_BY_OLDEST : Bool := true

/-! ## Store entries and mtime ordering -/

/-- A file in the overflow-store directory: its name, its filesystem
modification time, and its size in bytes (`os.path.getmtime` /
`os.statvfs` views of the same entry). -/
structure StoreFile where
  name : String
  mtime : Nat
  size : Nat
deriving DecidableEq, Repr

/-- The sort key used by both `_cleanup` and `flush_to_server`:
ascending modification time (`os.path.getmtime`). -/
def mtimeLE (a b : StoreFile) : Prop := a.mtime ≤ b.mtime

instance : DecidableRel mtimeLE := fun a b => inferInstanceAs (Decidable (a.mtime ≤ b.mtime))

instance : IsTotal StoreFile mtimeLE := ⟨fun a b => Nat.le_total a.mtime b.mtime⟩

instance : IsTrans StoreFile mtimeLE := ⟨fun _ _ _ h1 h2 => Nat.le_trans h1 h2⟩

/-- Models Python's `files.sort()` on `(mtime, path)` pairs /
`names.sort(key=lambda n: os.path.getmtime(...))`: sort entries by
ascending modification time. -/
def sortByMtime (l : List StoreFile) : List StoreFile := List.insertionSort mtimeLE l

/-! ## Drain (`DiskManager.flush_to_server`) -/

/-- The shared state the drain reads and writes: the store directory's
contents, the cached `has_files` flag, and the global `degraded_mode`
flag. -/
structure FlushState where
  store : List StoreFile
  has_files : Bool
  degraded_mode : Bool
deriving DecidableEq, Repr

/-- The per-file retry loop of `flush_to_server`
(`for attempt in range(1, FLUSH_RETRIES_PER_FILE + 1)`): attempts are
numbered from `a` upwards, `n` attempts remain; returns whether some
attempt succeeded (on success the loop breaks). -/
def flushAttempts (deliver : String → Nat → Bool) (fname : String) : Nat → Nat → Bool
  | _, 0 => false
  | a, n + 1 => if deliver fname a then true else flushAttempts deliver fname (a + 1) n

/-- The `while True` loop body of `flush_to_server`, with explicit fuel
(the loop removes one file per iteration, so `store.length + 1` fuel is
always enough).  Each iteration: list the directory; if empty, record
`has_files = False` and clear `degraded_mode` and stop; otherwise sort
oldest-first, try the single oldest entry up to `FLUSH_RETRIES_PER_FILE`
times; on success remove it and continue, on exhaustion abort the whole
drain leaving the directory untouched.  Returns the names removed, in
removal order, together with the final state. -/
def flushGo (deliver : String → Nat → Bool) : Nat → FlushState → List String × FlushState
  | 0, st => ([], st)
  | fuel + 1, st =>
    if st.store = [] then
      ([], { st with has_files := false, degraded_mode := false })
    else
      match (if DISK_FLUSH_ORDER_BY_OLDEST then sortByMtime st.store else st.store) with
      | [] => ([], st)
      | oldest :: rest =>
        if flushAttempts deliver oldest.name 1 FLUSH_RETRIES_PER_FILE then
          let r := flushGo deliver fuel { st with store := rest }
          (oldest.name :: r.1, r.2)
        else
          ([], st)

/-- `DiskManager.flush_to_server`, run with sufficient fuel.  (The
`flush_lock` single-flight guard is not modelled: this is the behaviour
of the drain body once the lock is acquired.) -/
def flush_to_server (deliver : String → Nat → Bool) (st : FlushState) :
    List String × FlushState :=
  flushGo deliver (st.store.length + 1) st

/-- The recovery step of `startup_logic` after the bounded network wait:
`if disk_manager.has_files: disk_manager.flush_to_server(session)`.
The boolean records whether `flush_to_server` was invoked. -/
def startup_logic_step (deliver : String → Nat → Bool) (st : FlushState) :
    Bool × (List String × FlushState) :=
  if st.has_files then (true, flush_to_server deliver st) else (false, ([], st))

/-! ## Disk manager (`DiskManager.save` / `DiskManager._cleanup`) -/

/-- The filesystem view `save` and `_cleanup` operate on: total capacity
and free bytes (`os.statvfs`), plus the store directory's entries. -/
structure DiskState where
  capacity : Nat
  free : Nat
  entries : List StoreFile
deriving DecidableEq, Repr

/-- `DiskManager._space_ok`: `free / total >= self.reserve_ratio`, with
the float division modelled over the rationals. -/
def space_ok (rsv : ℚ) (capacity free : Nat) : Bool :=
  decide (rsv ≤ (free : ℚ) / (capacity : ℚ))

/-- The deletion loop of `_cleanup`, over the mtime-sorted entry list:
stop as soon as `_space_ok`; otherwise remove the oldest entry
(reclaiming its bytes) and continue.  Deletions are modelled as
succeeding (the source breaks out early if `os.remove` raises).
Returns the surviving entries (still oldest-first) and the new free
byte count. -/
def cleanupGo (rsv : ℚ) (capacity : Nat) : List StoreFile → Nat → List StoreFile × Nat
  | [], free => ([], free)
  | f :: fs, free =>
    if space_ok rsv capacity free then (f :: fs, free)
    else cleanupGo rsv capacity fs (free + f.size)

/-- `DiskManager._cleanup`: list the directory, sort by modification
time (`DISK_SORT_BY_MTIME` is true), delete oldest-first until the free
space reaches the reserve. -/
def cleanup (rsv : ℚ) (st : DiskState) : DiskState :=
  let sorted := if DISK_SORT_BY_MTIME then sortByMtime st.entries else st.entries
  let r := cleanupGo rsv st.capacity sorted st.free
  { st with entries := r.1, free := r.2 }

/-- `DiskManager.save`: reclaim space first (`self._cleanup()`), then
write the item.  The write succeeds when the item fits in the remaining
free bytes and consumes them; otherwise `open`/`write` raises, the
exception is caught and logged (`存盘失败`) and the item is lost, the
documented data-loss path.  (Name collisions — overwrite of an existing
entry — are not modelled; producer names are timestamped and unique.) -/
def save (rsv : ℚ) (item : StoreFile) (st : DiskState) : DiskState :=
  let c := cleanup rsv st
  if item.size ≤ c.free then
    { c with entries := c.entries ++ [item], free := c.free - item.size }
  else c

/-- Total size in bytes of a list of store entries. -/
def sumSizes (l : List StoreFile) : Nat := (l.map (fun f => f.size)).sum

/-! ## Upload worker (`upload_worker`) -/

/-- What became of an item the worker pulled from the relay queue. -/
inductive WorkerOutcome
  | delivered
  | savedToStore
deriving DecidableEq, Repr

/-- Observable trace of one `upload_worker` call: where the item ended
up, how many live-delivery attempts were made, and the value of
`degraded_mode` when the worker finished. -/
structure WorkerRun where
  result : WorkerOutcome
  attemptsMade : Nat
  degradedAfter : Bool
deriving DecidableEq, Repr

/-- The live-upload retry loop of `upload_worker`
(`for attempt in range(1, UPLOAD_RETRIES + 1)`): attempts are numbered
from `a` upwards, `n` attempts remain; returns whether some attempt
succeeded together with the number of attempts actually made (the loop
breaks on the first success). -/
def uploadLoop (outcome : Nat → Bool) : Nat → Nat → Bool × Nat
  | _, 0 => (false, 0)
  | a, n + 1 =>
    if outcome a then (true, 1)
    else
      let r := uploadLoop outcome (a + 1) n
      (r.1, r.2 + 1)

/-- `upload_worker` for one item, as a function of the `degraded_mode`
snapshot taken under `degraded_lock` and of the live-delivery outcome of
each attempt (`upload_once` abstracted).  Degraded: save to disk at
once, no upload attempt, flag stays set.  Normal: retry live upload up
to `UPLOAD_RETRIES` times; on success done; on exhaustion save to disk
and set `degraded_mode`. -/
def upload_worker (degraded : Bool) (outcome : Nat → Bool) : WorkerRun :=
  if degraded then ⟨.savedToStore, 0, true⟩
  else
    let r := uploadLoop outcome 1 UPLOAD_RETRIES
    if r.1 then ⟨.delivered, r.2, false⟩
    else ⟨.savedToStore, r.2, true⟩

/-! ## Exposure control (the adjustment step inside `camera_task`) -/

/-- The producer's exposure mode (`mode = "AUTO" | "MANUAL"`). -/
inductive CamMode
  | AUTO
  | MANUAL
deriving DecidableEq, Repr

/-- The per-cycle exposure-control step of `camera_task`, acting on
`(mode, current_exposure)` given the measured `brightness`.  AUTO:
brightness below the low threshold switches to MANUAL with exposure
reset to the minimum.  MANUAL: brightness above the high threshold with
exposure already at the minimum returns to AUTO; otherwise, outside the
deadband, slew-limit the exposure toward
`current_exposure * (TARGET_BRIGHTNESS / max(brightness, 1))` and clamp
to `[MIN_EXPOSURE, MAX_EXPOSURE]`.  (The autofocus counter, a separate
side effect of the AUTO branch, is not part of exposure control and is
not modelled.) -/
def exposure_step (mode : CamMode) (current_exposure brightness : ℚ) : CamMode × ℚ :=
  match mode with
  | .AUTO =>
    if brightness < BRIGHTNESS_LOW_THRESHOLD then (.MANUAL, MIN_EXPOSURE)
    else (.AUTO, current_exposure)
  | .MANUAL =>
    if BRIGHTNESS_HIGH_THRESHOLD < brightness ∧ current_exposure ≤ MIN_EXPOSURE then
      (.AUTO, MIN_EXPOSURE)
    else
      if BRIGHTNESS_DEADBAND ≤ |brightness - TARGET_BRIGHTNESS| then
        let r := TARGET_BRIGHTNESS / max brightness 1
        let desired_exposure := current_exposure * r
        let delta := desired_exposure - current_exposure
        let delta2 :=
          if 0 < delta then min delta (current_exposure * STEP_SPEED_UP)
          else max delta (-(current_exposure * STEP_SPEED_DOWN))
        (.MANUAL, max MIN_EXPOSURE (min MAX_EXPOSURE (current_exposure + delta2)))
      else (.MANUAL, current_exposure)

/-- Written from the spec's words, for comparison with `exposure_step`:
if `|brightness - target| < deadband` the exposure is unchanged;
otherwise `delta = exposure * (target / max(brightness, 1)) - exposure`,
capped at `+exposure * stepUp` when positive and at
`-exposure * stepDown` when negative, and the result is clamped to
`[minExposure, maxExposure]`. -/
def specExposureUpdate (exposure brightness : ℚ) : ℚ :=
  if |brightness - TARGET_BRIGHTNESS| < BRIGHTNESS_DEADBAND then exposure
  else
    let delta := exposure * (TARGET_BRIGHTNESS / max brightness 1) - exposure
    let capped :=
      if 0 < delta then min delta (exposure * STEP_SPEED_UP)
      else max delta (-(exposure * STEP_SPEED_DOWN))
    max MIN_EXPOSURE (min MAX_EXPOSURE (exposure + capped))

/-! ## Filenames: producer format string vs. the server's pattern -/

/-- Two-digit zero-padded decimal rendering (the strftime fields
`%m`, `%d`, `%H`, `%M`, `%S`), for arguments below 100. -/
def pad2 (n : Nat) : List Char := [Nat.digitChar (n / 10), Nat.digitChar (n % 10)]

/-- Four-digit decimal rendering of the year (`%Y`), exact for years in
`[1000, 9999]` — the range `datetime.now(UTC)` produces. -/
def pad4 (n : Nat) : List Char :=
  [Nat.digitChar (n / 1000), Nat.digitChar (n / 100 % 10),
   Nat.digitChar (n / 10 % 10), Nat.digitChar (n % 10)]

/-- Consume an exact literal prefix, returning the remaining input (the
fixed characters of the server's regular expression). -/
def expectLit : List Char → List Char → Option (List Char)
  | [], cs => some cs
  | l :: ls, c :: cs => if c = l then expectLit ls cs else none
  | _ :: _, [] => none

/-- Consume exactly `n` ASCII digits, returning the remaining input
(a `\d\x7bn\x7d` group of the server's regular expression). -/
def expectDigits : Nat → List Char → Option (List Char)
  | 0, cs => some cs
  | n + 1, c :: cs => if c.isDigit then expectDigits n cs else none
  | _ + 1, [] => none

/-- The server's `FILENAME_PATTERN`
(`upload_photo` in upload-srv.py), embedded as an anchored
sequential matcher:
`pic_` `\d\x7b2\x7d` `_` `\d\x7b4\x7d` `-` `\d\x7b2\x7d` `-` `\d\x7b2\x7d`
`_` `\d\x7b2\x7d` `-` `\d\x7b2\x7d` `-` `\d\x7b2\x7d` `.jpg`,
with the whole input consumed. -/
def filenameMatches (cs : List Char) : Bool :=
  match (((((((((((((((expectLit "pic_".data cs).bind
      (expectDigits 2)).bind
      (expectLit "_".data)).bind
      (expectDigits 4)).bind
      (expectLit "-".data)).bind
      (expectDigits 2)).bind
      (expectLit "-".data)).bind
      (expectDigits 2)).bind
      (expectLit "_".data)).bind
      (expectDigits 2)).bind
      (expectLit "-".data)).bind
      (expectDigits 2)).bind
      (expectLit "-".data)).bind
      (expectDigits 2)).bind
      (expectLit ".jpg".data)) with
  | some [] => true
  | _ => false

/-- The producer's filename: `f"pic_\x7bDEVICE_ID\x7d_\x7btimestamp\x7d.jpg"`
with `timestamp = datetime.now(UTC).strftime("%Y-%m-%d_%H-%M-%S")`,
built from the capture instant's calendar fields. -/
def producerFilename (y mo d h mi s : Nat) : List Char :=
  "pic_".data ++ DEVICE_ID.data ++ "_".data ++
  pad4 y ++ "-".data ++ pad2 mo ++ "-".data ++ pad2 d ++ "_".data ++
  pad2 h ++ "-".data ++ pad2 mi ++ "-".data ++ pad2 s ++ ".jpg".data

/-! ## Helper lemmas -/

lemma uploadLoop_fst_iff (o : Nat → Bool) :
    ∀ n a, (uploadLoop o a n).1 = true ↔ ∃ i, a ≤ i ∧ i < a + n ∧ o i = true := by
  intro n
  induction n with
  | zero =>
    intro a
    simp only [uploadLoop]
    constructor
    · intro h; exact absurd h (by simp)
    · rintro ⟨i, h1, h2, _⟩; omega
  | succ n ih =>
    intro a
    cases hoa : o a with
    | true =>
      simp only [uploadLoop, hoa, if_true]
      exact ⟨fun _ => ⟨a, le_rfl, by omega, hoa⟩, fun _ => by trivial⟩
    | false =>
      simp only [uploadLoop, hoa, Bool.false_eq_true, if_false]
      rw [ih (a + 1)]
      constructor
      · rintro ⟨i, h1, h2, h3⟩; exact ⟨i, by omega, by omega, h3⟩
      · rintro ⟨i, h1, h2, h3⟩
        rcases Nat.eq_or_lt_of_le h1 with he | hl
        · exact absurd (he ▸ h3) (by simp [hoa])
        · exact ⟨i, by omega, by omega, h3⟩

lemma uploadLoop_of_all_false (o : Nat → Bool) :
    ∀ n a, (∀ i, a ≤ i → i < a + n → o i = false) → uploadLoop o a n = (false, n) := by
  intro n
  induction n with
  | zero => intro a _; rfl
  | succ n ih =>
    intro a h
    have h0 : o a = false := h a le_rfl (by omega)
    simp only [uploadLoop, h0, Bool.false_eq_true, if_false]
    rw [ih (a + 1) (fun i h1 h2 => h i (by omega) (by omega))]

/-! ## Claim theorems -/

/-- C1: every item a worker pulls from the relay queue is, whatever the
sequence of live-delivery outcomes, either delivered to the endpoint (an
upload attempt within the retry budget returned success) or handed to
the Durable Overflow Store's save operation; the worker has no other
exit. -/
theorem upload_worker_no_silent_loss (degraded : Bool) (outcome : Nat → Bool) :
    ((upload_worker degraded outcome).result = WorkerOutcome.delivered ∧
      ∃ i, 1 ≤ i ∧ i ≤ UPLOAD_RETRIES ∧ outcome i = true) ∨
    (upload_worker degraded outcome).result = WorkerOutcome.savedToStore := by
  cases degraded with
  | true => exact Or.inr rfl
  | false =>
    cases hr : (uploadLoop outcome 1 UPLOAD_RETRIES).1 with
    | false =>
      right
      simp [upload_worker, hr]
    | true =>
      left
      refine ⟨by simp [upload_worker, hr], ?_⟩
      obtain ⟨i, h1, h2, h3⟩ := (uploadLoop_fst_iff outcome UPLOAD_RETRIES 1).1 hr
      exact ⟨i, h1, by omega, h3⟩

/-- C5: if live delivery of an item fails on every attempt of a
normal-mode worker's retry budget, the worker hands the item to the
store's save operation and leaves `degraded_mode = true` (and, given the
disk write fits after reclamation, the item is then an entry of the
store directory); and a worker that observes the flag as true saves
immediately, making zero live-delivery attempts. -/
theorem failed_delivery_enters_degraded (o oNext : Nat → Bool) (item : StoreFile)
    (fs : DiskState)
    (hfail : ∀ i, 1 ≤ i → i ≤ UPLOAD_RETRIES → o i = false)
    (hfit : item.size ≤ (cleanup DISK_RESERVE fs).free) :
    (upload_worker false o).result = WorkerOutcome.savedToStore ∧
    (upload_worker false o).degradedAfter = true ∧
    item ∈ (save DISK_RESERVE item fs).entries ∧
    (upload_worker true oNext).result = WorkerOutcome.savedToStore ∧
    (upload_worker true oNext).attemptsMade = 0 := by
  have hloop : uploadLoop o 1 UPLOAD_RETRIES = (false, UPLOAD_RETRIES) :=
    uploadLoop_of_all_false o UPLOAD_RETRIES 1 (fun i h1 h2 => hfail i h1 (by omega))
  refine ⟨by simp [upload_worker, hloop], by simp [upload_worker, hloop], ?_, rfl, rfl⟩
  simp only [save, if_pos hfit]
  exact List.mem_append_right _ (List.mem_singleton.2 rfl)

/-- C5 witness: all-failing outcomes for the normal-mode worker, an
always-succeeding outcome for the degraded-mode worker, and a 1-byte
item saved into an empty store with ample free space. -/
theorem failed_delivery_enters_degraded_witness :
    ((⟨"x", 0, 1⟩ : StoreFile).size ≤ (cleanup DISK_RESERVE ⟨100, 50, []⟩).free) ∧
    ((upload_worker false (fun _ => false)).result = WorkerOutcome.savedToStore ∧
      (upload_worker false (fun _ => false)).degradedAfter = true ∧
      (⟨"x", 0, 1⟩ : StoreFile) ∈ (save DISK_RESERVE ⟨"x", 0, 1⟩ ⟨100, 50, []⟩).entries ∧
      (upload_worker true (fun _ => true)).result = WorkerOutcome.savedToStore ∧
      (upload_worker true (fun _ => true)).attemptsMade = 0) :=
  ⟨by decide,
    failed_delivery_enters_degraded (fun _ => false) (fun _ => true) ⟨"x", 0, 1⟩
      ⟨100, 50, []⟩ (fun _ _ _ => rfl) (by decide)⟩

/-- C2 counterexample: running `flush_to_server` on an empty store with
`degraded_mode = true` does not leave the flag true — the empty-listing
branch clears it. -/
theorem flush_empty_counterexample :
    ¬ ((flush_to_server (fun _ _ => false)
        { store := [], has_files := true, degraded_mode := true }).2.degraded_mode = true) := by
  decide

/-- C2 amended: running the drain on an empty store deletes no files and
performs no delivery attempts (the result does not depend on the
delivery function), but it is not flag-neutral: it records
`has_files = false` and clears `degraded_mode` to false. -/
theorem flush_on_empty_store (deliver : String → Nat → Bool) (st : FlushState)
    (h : st.store = []) :
    flush_to_server deliver st =
      ([], { st with has_files := false, degraded_mode := false }) := by
  simp [flush_to_server, flushGo, h]

/-- C2 witness: the amended statement at the empty degraded state. -/
theorem flush_on_empty_store_witness :
    ((⟨[], true, true⟩ : FlushState).store = []) ∧
    flush_to_server (fun _ _ => false) ⟨[], true, true⟩ =
      ([], ⟨[], false, false⟩) :=
  ⟨rfl, flush_on_empty_store (fun _ _ => false) ⟨[], true, true⟩ rfl⟩

/-- C3 counterexample: with the cached pending flag false (an empty
store at startup), the startup routine does not invoke the drain, and in
consequence the `degraded_mode` flag set unconditionally at startup
stays true — whereas an unconditional drain on the empty store would
have cleared it. -/
theorem startup_skips_drain_counterexample :
    (startup_logic_step (fun _ _ => true)
        { store := [], has_files := false, degraded_mode := true }).1 = false ∧
    ((startup_logic_step (fun _ _ => true)
        { store := [], has_files := false, degraded_mode := true }).2).2.degraded_mode = true ∧
    (flush_to_server (fun _ _ => true)
        { store := [], has_files := false, degraded_mode := true }).2.degraded_mode = false := by
  decide

/-- C3 amended: the startup routine's recovery step invokes the drain
only when the cached pending flag is true; when `has_files` is false it
skips the drain entirely and hands off with the whole state (the store
and both flags) unchanged. -/
theorem startup_drain_only_when_pending (deliver : String → Nat → Bool) (st : FlushState)
    (h : st.has_files = false) :
    startup_logic_step deliver st = (false, ([], st)) := by
  simp [startup_logic_step, h]

/-- C3 witness: the amended statement at a state with a pending file on
disk but the cached flag false. -/
theorem startup_drain_only_when_pending_witness :
    ((⟨[⟨"a", 1, 5⟩], false, true⟩ : FlushState).has_files = false) ∧
    startup_logic_step (fun _ _ => true) ⟨[⟨"a", 1, 5⟩], false, true⟩ =
      (false, ([], ⟨[⟨"a", 1, 5⟩], false, true⟩)) :=
  ⟨rfl, startup_drain_only_when_pending (fun _ _ => true) ⟨[⟨"a", 1, 5⟩], false, true⟩ rfl⟩

/-- C8: in MANUAL mode, when the measured brightness does not trigger
the return to AUTO, the exposure update computed by `camera_task` is
exactly the spec's formula: unchanged inside the deadband, otherwise the
slew-limited, clamped step `specExposureUpdate`. -/
theorem manual_exposure_matches_spec (e b : ℚ)
    (h : ¬(BRIGHTNESS_HIGH_THRESHOLD < b ∧ e ≤ MIN_EXPOSURE)) :
    exposure_step CamMode.MANUAL e b = (CamMode.MANUAL, specExposureUpdate e b) := by
  simp only [exposure_step, specExposureUpdate, if_neg h]
  by_cases hd : BRIGHTNESS_DEADBAND ≤ |b - TARGET_BRIGHTNESS|
  · rw [if_pos hd, if_neg (not_lt.2 hd)]
  · rw [if_neg hd, if_pos (not_le.1 hd)]

/-- C8 witness: a mid-band brightness at exposure 1 second. -/
theorem manual_exposure_matches_spec_witness :
    (¬(BRIGHTNESS_HIGH_THRESHOLD < (64 : ℚ) ∧ (1 : ℚ) ≤ MIN_EXPOSURE)) ∧
    exposure_step CamMode.MANUAL 1 64 = (CamMode.MANUAL, specExposureUpdate 1 64) :=
  ⟨by decide, manual_exposure_matches_spec 1 64 (by decide)⟩

/-- C9: for any brightness between the low and high thresholds
(inclusive), the exposure-control step never changes the mode: AUTO
stays AUTO and MANUAL stays MANUAL, so the controller cannot flap
between the two while brightness stays in that band. -/
theorem mode_hysteresis (m : CamMode) (e b : ℚ)
    (h1 : BRIGHTNESS_LOW_THRESHOLD ≤ b) (h2 : b ≤ BRIGHTNESS_HIGH_THRESHOLD) :
    (exposure_step m e b).1 = m := by
  cases m with
  | AUTO =>
    simp only [exposure_step, if_neg (not_lt.2 h1)]
  | MANUAL =>
    have hc : ¬(BRIGHTNESS_HIGH_THRESHOLD < b ∧ e ≤ MIN_EXPOSURE) :=
      fun hx => absurd hx.1 (not_lt.2 h2)
    simp only [exposure_step, if_neg hc]
    split <;> rfl

/-- C9 witness: brightness 100 in MANUAL mode. -/
theorem mode_hysteresis_witness :
    (BRIGHTNESS_LOW_THRESHOLD ≤ (100 : ℚ) ∧ (100 : ℚ) ≤ BRIGHTNESS_HIGH_THRESHOLD) ∧
    (exposure_step CamMode.MANUAL 1 100).1 = CamMode.MANUAL :=
  ⟨by decide, mode_hysteresis CamMode.MANUAL 1 100 (by decide) (by decide)⟩

lemma sortByMtime_length (l : List StoreFile) : (sortByMtime l).length = l.length :=
  List.length_insertionSort mtimeLE l

lemma flushAttempts_of_head_success (deliver : String → Nat → Bool) (fname : String)
    (h : deliver fname 1 = true) :
    flushAttempts deliver fname 1 FLUSH_RETRIES_PER_FILE = true := by
  simp [FLUSH_RETRIES_PER_FILE, flushAttempts, h]

/-- With an always-succeeding delivery function and enough fuel, the
drain loop removes exactly the mtime-sorted entries, in order, and ends
in the empty, non-degraded state. -/
lemma flushGo_all_success (deliver : String → Nat → Bool)
    (hd : ∀ n a, deliver n a = true) :
    ∀ fuel st, st.store.length < fuel →
      flushGo deliver fuel st =
        ((sortByMtime st.store).map (fun f => f.name), ⟨[], false, false⟩) := by
  intro fuel
  induction fuel with
  | zero => intro st h; omega
  | succ fuel ih =>
    intro st h
    by_cases hs : st.store = []
    · simp [flushGo, hs, sortByMtime, List.insertionSort]
    · obtain ⟨oldest, rest, hsort⟩ : ∃ o r, sortByMtime st.store = o :: r := by
        cases hq : sortByMtime st.store with
        | nil =>
          exfalso
          have := sortByMtime_length st.store
          rw [hq] at this
          exact hs (List.length_eq_zero.1 this.symm)
        | cons o r => exact ⟨o, r, rfl⟩
      have hfa : flushAttempts deliver oldest.name 1 FLUSH_RETRIES_PER_FILE = true :=
        flushAttempts_of_head_success deliver oldest.name (hd oldest.name 1)
      have hlen : rest.length < fuel := by
        have hl := sortByMtime_length st.store
        rw [hsort] at hl
        simp only [List.length_cons] at hl
        omega
      have hsorted : List.Sorted mtimeLE (sortByMtime st.store) :=
        List.sorted_insertionSort mtimeLE st.store
      have hrest_sorted : sortByMtime rest = rest := by
        rw [hsort] at hsorted
        exact List.Sorted.insertionSort_eq (List.Sorted.of_cons hsorted)
      simp only [flushGo, if_neg hs, DISK_FLUSH_ORDER_BY_OLDEST, if_true, hsort]
      rw [ih { st with store := rest } hlen]
      simp [hfa, hrest_sorted]

/-- C6: if the store's entries carry pairwise-distinct modification
times, draining with an always-succeeding delivery function removes
exactly the entries in mtime-sorted order — an order that is strictly
oldest-to-newest — and terminates with the directory empty, the cached
pending flag false and `degraded_mode` reset to false (Normal). -/
theorem drain_all_success_ordered (deliver : String → Nat → Bool) (st : FlushState)
    (hd : ∀ n a, deliver n a = true)
    (hnd : (st.store.map (fun f => f.mtime)).Pairwise (fun a b => a ≠ b)) :
    (flush_to_server deliver st).1 = (sortByMtime st.store).map (fun f => f.name) ∧
    ((sortByMtime st.store).map (fun f => f.mtime)).Pairwise (fun a b => a < b) ∧
    (flush_to_server deliver st).2 = ⟨[], false, false⟩ := by
  have hmain := flushGo_all_success deliver hd (st.store.length + 1) st (by omega)
  refine ⟨by rw [flush_to_server, hmain], ?_, by rw [flush_to_server, hmain]⟩
  have hsorted : List.Sorted mtimeLE (sortByMtime st.store) :=
    List.sorted_insertionSort mtimeLE st.store
  have hperm : List.Perm ((sortByMtime st.store).map (fun f => f.mtime))
      (st.store.map (fun f => f.mtime)) :=
    List.Perm.map _ (List.perm_insertionSort mtimeLE st.store)
  have hnd2 : ((sortByMtime st.store).map (fun f => f.mtime)).Pairwise (fun a b => a ≠ b) :=
    (hperm.pairwise_iff (fun h => h.symm)).2 hnd
  have hp1 : (sortByMtime st.store).Pairwise (fun a b => a.mtime ≤ b.mtime) := hsorted
  have hp2 : (sortByMtime st.store).Pairwise (fun a b => a.mtime ≠ b.mtime) :=
    List.pairwise_map.1 hnd2
  rw [List.pairwise_map]
  exact (hp1.and hp2).imp (fun h => lt_of_le_of_ne h.1 h.2)

/-- C6 witness: three files with distinct modification times and an
always-succeeding delivery function. -/
theorem drain_all_success_ordered_witness :
    (((⟨[⟨"a", 2, 0⟩, ⟨"b", 1, 0⟩, ⟨"c", 3, 0⟩], true, true⟩ : FlushState).store.map
        (fun f => f.mtime)).Pairwise (fun a b => a ≠ b)) ∧
    ((flush_to_server (fun _ _ => true)
        ⟨[⟨"a", 2, 0⟩, ⟨"b", 1, 0⟩, ⟨"c", 3, 0⟩], true, true⟩).1 =
      (sortByMtime [⟨"a", 2, 0⟩, ⟨"b", 1, 0⟩, ⟨"c", 3, 0⟩]).map (fun f => f.name) ∧
      ((sortByMtime [⟨"a", 2, 0⟩, ⟨"b", 1, 0⟩, ⟨"c", 3, 0⟩]).map
        (fun f => f.mtime)).Pairwise (fun a b => a < b) ∧
      (flush_to_server (fun _ _ => true)
        ⟨[⟨"a", 2, 0⟩, ⟨"b", 1, 0⟩, ⟨"c", 3, 0⟩], true, true⟩).2 = ⟨[], false, false⟩) :=
  ⟨by decide,
    drain_all_success_ordered (fun _ _ => true)
      ⟨[⟨"a", 2, 0⟩, ⟨"b", 1, 0⟩, ⟨"c", 3, 0⟩], true, true⟩
      (fun _ _ => rfl) (by decide)⟩

/-- C7: during a drain, if delivery of the single oldest entry fails on
all `FLUSH_RETRIES_PER_FILE` attempts, the drain returns immediately:
nothing is removed, the failed entry and every newer entry stay in the
store, and neither flag (in particular `degraded_mode`) is touched. -/
theorem drain_aborts_on_exhaustion (deliver : String → Nat → Bool) (st : FlushState)
    (oldest : StoreFile) (rest : List StoreFile)
    (hsort : sortByMtime st.store = oldest :: rest)
    (hfail : ∀ a, 1 ≤ a → a ≤ FLUSH_RETRIES_PER_FILE → deliver oldest.name a = false) :
    flush_to_server deliver st = ([], st) := by
  have hne : st.store ≠ [] := by
    intro h
    rw [h] at hsort
    exact absurd hsort (by simp [sortByMtime, List.insertionSort])
  have hfa : flushAttempts deliver oldest.name 1 FLUSH_RETRIES_PER_FILE = false := by
    simp [FLUSH_RETRIES_PER_FILE, flushAttempts,
      hfail 1 (by decide) (by decide), hfail 2 (by decide) (by decide),
      hfail 3 (by decide) (by decide)]
  simp [flush_to_server, flushGo, hne, DISK_FLUSH_ORDER_BY_OLDEST, hsort, hfa]

/-- C7 witness: two files whose older one always fails delivery. -/
theorem drain_aborts_on_exhaustion_witness :
    (sortByMtime [⟨"a", 2, 0⟩, ⟨"b", 1, 0⟩] = [⟨"b", 1, 0⟩, ⟨"a", 2, 0⟩]) ∧
    flush_to_server (fun _ _ => false) ⟨[⟨"a", 2, 0⟩, ⟨"b", 1, 0⟩], true, true⟩ =
      ([], ⟨[⟨"a", 2, 0⟩, ⟨"b", 1, 0⟩], true, true⟩) :=
  ⟨by decide,
    drain_aborts_on_exhaustion (fun _ _ => false) ⟨[⟨"a", 2, 0⟩, ⟨"b", 1, 0⟩], true, true⟩
      ⟨"b", 1, 0⟩ [⟨"a", 2, 0⟩] (by decide) (fun _ _ _ => rfl)⟩

lemma sumSizes_cons (f : StoreFile) (fs : List StoreFile) :
    sumSizes (f :: fs) = f.size + sumSizes fs := by
  simp [sumSizes]

lemma cleanupGo_reaches_reserve (rsv : ℚ) (cap : Nat) :
    ∀ (fs : List StoreFile) (free : Nat),
      rsv ≤ ((free + sumSizes fs : Nat) : ℚ) / (cap : ℚ) →
      rsv ≤ (((cleanupGo rsv cap fs free).2 : Nat) : ℚ) / (cap : ℚ) := by
  intro fs
  induction fs with
  | nil =>
    intro free h
    simpa [cleanupGo, sumSizes] using h
  | cons f fs ih =>
    intro free h
    by_cases hs : space_ok rsv cap free = true
    · simp only [cleanupGo, if_pos hs]
      simpa [space_ok, decide_eq_true_eq] using hs
    · simp only [cleanupGo, if_neg hs]
      apply ih
      have he : free + f.size + sumSizes fs = free + sumSizes (f :: fs) := by
        rw [sumSizes_cons]; omega
      rw [he]
      exact h

/-- C4 counterexample: with capacity 100 bytes, 10 free bytes and an
empty store (so reclamation trivially succeeds and ends with the free
ratio 1/10 above the reserve 1/20), saving an 8-byte item leaves only 2
free bytes: the free-space ratio at the moment `save` returns is 1/50,
below the reserve. -/
theorem save_reserve_counterexample :
    (DISK_RESERVE ≤ ((10 + sumSizes ([] : List StoreFile) : Nat) : ℚ) / ((100 : Nat) : ℚ)) ∧
    ¬ (DISK_RESERVE ≤
        (((save DISK_RESERVE ⟨"x", 0, 8⟩ ⟨100, 10, []⟩).free : Nat) : ℚ) / ((100 : Nat) : ℚ)) := by
  constructor
  · rw [show DISK_RESERVE = 1 / 20 from rfl]
    norm_num [sumSizes]
  · rw [show (save DISK_RESERVE ⟨"x", 0, 8⟩ ⟨100, 10, []⟩).free = 2 from by decide,
      show DISK_RESERVE = 1 / 20 from rfl]
    norm_num

/-- C4 amended: whenever enough deletable entries exist for reclamation
to succeed (deleting every entry would reach the reserve), the
reclamation that `save` runs before its write does restore the free
ratio to at least the reserve; the write that follows may then take the
ratio below the reserve, but only by at most the written item's own
share of capacity. -/
theorem save_reserve_bound (rsv : ℚ) (item : StoreFile) (st : DiskState)
    (hdel : rsv ≤ ((st.free + sumSizes st.entries : Nat) : ℚ) / ((st.capacity : Nat) : ℚ)) :
    rsv ≤ (((cleanup rsv st).free : Nat) : ℚ) / ((st.capacity : Nat) : ℚ) ∧
    rsv - ((item.size : Nat) : ℚ) / ((st.capacity : Nat) : ℚ) ≤
      (((save rsv item st).free : Nat) : ℚ) / ((st.capacity : Nat) : ℚ) := by
  have hsum : sumSizes (sortByMtime st.entries) = sumSizes st.entries := by
    unfold sumSizes
    exact List.Perm.sum_eq (List.Perm.map _ (List.perm_insertionSort mtimeLE st.entries))
  have h1 : rsv ≤ (((cleanup rsv st).free : Nat) : ℚ) / ((st.capacity : Nat) : ℚ) := by
    simp only [cleanup, DISK_SORT_BY_MTIME, if_true]
    apply cleanupGo_reaches_reserve
    rw [hsum]
    exact hdel
  refine ⟨h1, ?_⟩
  by_cases hw : item.size ≤ (cleanup rsv st).free
  · simp only [save, cleanup] at hw ⊢
    rw [if_pos hw]
    have hc : (((cleanup rsv st).free - item.size : Nat) : ℚ) =
        (((cleanup rsv st).free : Nat) : ℚ) - ((item.size : Nat) : ℚ) := by
      simp only [cleanup]
      push_cast [Nat.cast_sub hw]
      ring
    calc rsv - ((item.size : Nat) : ℚ) / ((st.capacity : Nat) : ℚ)
        ≤ (((cleanup rsv st).free : Nat) : ℚ) / ((st.capacity : Nat) : ℚ) -
            ((item.size : Nat) : ℚ) / ((st.capacity : Nat) : ℚ) :=
          sub_le_sub_right h1 _
      _ = (((cleanup rsv st).free - item.size : Nat) : ℚ) / ((st.capacity : Nat) : ℚ) := by
          rw [hc, sub_div]
      _ = _ := by simp only [cleanup]
  · simp only [save, cleanup] at hw ⊢
    rw [if_neg hw]
    have hnn : 0 ≤ ((item.size : Nat) : ℚ) / ((st.capacity : Nat) : ℚ) :=
      div_nonneg (by positivity) (by positivity)
    calc rsv - ((item.size : Nat) : ℚ) / ((st.capacity : Nat) : ℚ)
        ≤ rsv := sub_le_self rsv hnn
      _ ≤ _ := by simpa only [cleanup] using h1

/-- C4 witness: the amended bound at the counterexample's input. -/
theorem save_reserve_bound_witness :
    (DISK_RESERVE ≤ ((10 + sumSizes ([] : List StoreFile) : Nat) : ℚ) / ((100 : Nat) : ℚ)) ∧
    (DISK_RESERVE ≤ (((cleanup DISK_RESERVE ⟨100, 10, []⟩).free : Nat) : ℚ) / ((100 : Nat) : ℚ) ∧
      DISK_RESERVE - ((8 : Nat) : ℚ) / ((100 : Nat) : ℚ) ≤
        (((save DISK_RESERVE ⟨"x", 0, 8⟩ ⟨100, 10, []⟩).free : Nat) : ℚ) / ((100 : Nat) : ℚ)) :=
  ⟨by rw [show DISK_RESERVE = 1 / 20 from rfl]; norm_num [sumSizes],
    save_reserve_bound DISK_RESERVE ⟨"x", 0, 8⟩ ⟨100, 10, []⟩
      (by rw [show DISK_RESERVE = 1 / 20 from rfl]; norm_num [sumSizes])⟩

lemma digitChar_isDigit (d : Nat) (h : d < 10) : (Nat.digitChar d).isDigit = true := by
  interval_cases d <;> decide

lemma expectLit_self (ls rest : List Char) : expectLit ls (ls ++ rest) = some rest := by
  induction ls with
  | nil => rfl
  | cons c cs ih => simp [expectLit, ih]

lemma expectDigits_cons (n : Nat) (c : Char) (cs : List Char) (h : c.isDigit = true) :
    expectDigits (n + 1) (c :: cs) = expectDigits n cs := by
  simp [expectDigits, h]

lemma expectDigits_pad2 (n : Nat) (h : n < 100) (rest : List Char) :
    expectDigits 2 (pad2 n ++ rest) = some rest := by
  calc expectDigits 2 (pad2 n ++ rest)
      = expectDigits 1 (Nat.digitChar (n % 10) :: rest) :=
        expectDigits_cons 1 _ _ (digitChar_isDigit _ (by omega))
    _ = expectDigits 0 rest :=
        expectDigits_cons 0 _ _ (digitChar_isDigit _ (by omega))
    _ = some rest := rfl

lemma expectDigits_pad4 (n : Nat) (h : n ≤ 9999) (rest : List Char) :
    expectDigits 4 (pad4 n ++ rest) = some rest := by
  calc expectDigits 4 (pad4 n ++ rest)
      = expectDigits 3 (Nat.digitChar (n / 100 % 10) :: Nat.digitChar (n / 10 % 10) ::
          Nat.digitChar (n % 10) :: rest) :=
        expectDigits_cons 3 _ _ (digitChar_isDigit _ (by omega))
    _ = expectDigits 2 (Nat.digitChar (n / 10 % 10) :: Nat.digitChar (n % 10) :: rest) :=
        expectDigits_cons 2 _ _ (digitChar_isDigit _ (by omega))
    _ = expectDigits 1 (Nat.digitChar (n % 10) :: rest) :=
        expectDigits_cons 1 _ _ (digitChar_isDigit _ (by omega))
    _ = expectDigits 0 rest :=
        expectDigits_cons 0 _ _ (digitChar_isDigit _ (by omega))
    _ = some rest := rfl

lemma expectDigits_device (rest : List Char) :
    expectDigits 2 ("01".data ++ rest) = some rest := rfl

lemma expectLit_jpg : expectLit ".jpg".data ".jpg".data = some [] := rfl

set_option maxHeartbeats 1600000 in
/-- C10: the producer builds filenames purely from the device id and the
capture timestamp, and every such filename is accepted by the upload
endpoint's validation: for every calendar instant the producer's
strftime format can emit (four-digit year, zero-padded two-digit month,
day, hour, minute, second), the generated name matches the server's
`FILENAME_PATTERN`, so the endpoint never answers
`invalid filename format` to a producer-generated name. -/
theorem producer_filename_accepted (y mo d h mi s : Nat)
    (hy1 : 1000 ≤ y) (hy2 : y ≤ 9999) (hmo : mo ≤ 12) (hd2 : d ≤ 31)
    (hh : h ≤ 23) (hmi : mi ≤ 59) (hs : s ≤ 59) :
    filenameMatches (producerFilename y mo d h mi s) = true := by
  simp only [filenameMatches, producerFilename, DEVICE_ID, List.append_assoc]
  rw [expectLit_self]
  simp only [Option.some_bind]
  rw [expectDigits_device]
  simp only [Option.some_bind]
  rw [expectLit_self]
  simp only [Option.some_bind]
  rw [expectDigits_pad4 y hy2]
  simp only [Option.some_bind]
  rw [expectLit_self]
  simp only [Option.some_bind]
  rw [expectDigits_pad2 mo (by omega)]
  simp only [Option.some_bind]
  rw [expectLit_self]
  simp only [Option.some_bind]
  rw [expectDigits_pad2 d (by omega)]
  simp only [Option.some_bind]
  rw [expectLit_self]
  simp only [Option.some_bind]
  rw [expectDigits_pad2 h (by omega)]
  simp only [Option.some_bind]
  rw [expectLit_self]
  simp only [Option.some_bind]
  rw [expectDigits_pad2 mi (by omega)]
  simp only [Option.some_bind]
  rw [expectLit_self]
  simp only [Option.some_bind]
  rw [expectDigits_pad2 s (by omega)]
  simp only [Option.some_bind]
  rw [expectLit_jpg]

/-- C10 witness: the capture instant 2025-10-12 03:04:05 UTC. -/
theorem producer_filename_accepted_witness :
    (1000 ≤ 2025 ∧ 2025 ≤ 9999 ∧ 10 ≤ 12 ∧ 12 ≤ 31 ∧ 3 ≤ 23 ∧ 4 ≤ 59 ∧ 5 ≤ 59) ∧
    filenameMatches (producerFilename 2025 10 12 3 4 5) = true :=
  ⟨by decide,
    producer_filename_accepted 2025 10 12 3 4 5 (by decide) (by decide) (by decide)
      (by decide) (by decide) (by decide) (by decide)⟩

end TimeLapse
